import Mathlib

/-!
Shallow embedding of `src/app.py` (EchoVerse audiobook creator).

The program is a single-file Streamlit app with two thin HTTP wrappers and a
session-scoped history list:
  - `rewrite_text(text, tone)`: POSTs a prompt to the Watsonx generation
    endpoint; on `requests.exceptions.RequestException` (which includes the
    `HTTPError` raised by `raise_for_status` on 4xx/5xx) it shows one
    `st.error` and returns the original text; on success it evaluates
    `result.get("results", [{}])[0].get("generated_text", text)`.
  - `generate_audio(text, voice)`: calls the TTS SDK; on any exception it
    shows one `st.error` and returns `None`.
  - The `Generate Narration` button (disabled when `text_input` is falsy)
    runs rewrite, then synthesis, and appends a record to
    `st.session_state.narrations` only when `audio_data` is truthy, then
    renders playback and a download control.
  - The Past Narrations panel iterates `reversed(st.session_state.narrations)`.

Remote services are modelled as explicit response values passed to the
embedded functions; Streamlit calls and network calls are modelled as an
explicit effect trace.
-/

/-- One result object of the generation-service JSON response: the
`generated_text` field may be absent (`none`). -/
structure ResultObj where
  generated_text : Option String
  deriving Repr, DecidableEq

/-- The parsed JSON body of a generation-service response: the `results`
field may be absent (`none`) or be a list of result objects. -/
structure RewriteJson where
  results : Option (List ResultObj)
  deriving Repr, DecidableEq

/-- Outcome of the `requests.post` call in `rewrite_text`: either a
transport-level `RequestException` or an HTTP response with a status code and
a parsed JSON body. -/
inductive HttpResponse where
  | transportError (info : String)
  | status (code : Nat) (body : RewriteJson)
  deriving Repr, DecidableEq

/-- Python exceptions relevant to the embedded code. -/
inductive PyExn where
  | requestExn (info : String)
  | httpError (code : Nat)
  | indexError
  | ttsExn (info : String)
  deriving Repr, DecidableEq

/-- The request body built by `rewrite_text` (the `data` dict of the source):
model id, prompt, generation parameters and project id.  The temperature 0.7
is recorded as tenths to stay in exact arithmetic. -/
structure RewriteRequest where
  model_id : String
  input : String
  max_new_tokens : Nat
  temperature_tenths : Nat
  stop_sequences : List String
  project_id : String
  deriving Repr, DecidableEq

/-- Symbolic stand-in for the `WATSONX_PROJECT_ID` environment value. -/
def WATSONX_PROJECT_ID : String := "WATSONX_PROJECT_ID"

/-- Observable effects of one script run: outbound network calls and
Streamlit surface calls mentioned by the spec (error, warning, audio
playback, download control). -/
inductive Effect where
  | networkRewrite (req : RewriteRequest)
  | networkSynthesize (text voice : String)
  | stError (context : String) (e : PyExn)
  | stWarning (msg : String)
  | stAudio (audio : List Nat)
  | stDownload (audio : List Nat) (filename : String)
  deriving Repr, DecidableEq

/-- Result of running a piece of Python code: a value together with the
effect trace, or an uncaught exception (with the effects emitted before it
was raised). -/
inductive PyOutcome (α : Type) where
  | ok (v : α)
  | uncaught (e : PyExn) (effectsSoFar : List Effect)
  deriving Repr, DecidableEq

/-- The f-string prompt of `rewrite_text`. -/
def rewritePrompt (text tone : String) : String :=
  "Rewrite the following text in a " ++ tone ++
    " tone while preserving the original meaning:\n\n" ++ text

/-- The `data` dict sent by `rewrite_text`. -/
def rewriteRequest (text tone : String) : RewriteRequest :=
  { model_id := "ibm/granite-13b-chat-v2"
    input := rewritePrompt text tone
    max_new_tokens := 1000
    temperature_tenths := 7
    stop_sequences := []
    project_id := WATSONX_PROJECT_ID }

/-- `response.raise_for_status()` raises `HTTPError` exactly for status codes
in [400, 600). -/
def raiseForStatus (code : Nat) : Bool :=
  decide (400 ≤ code ∧ code < 600)

/-- Embedding of `rewrite_text(text, tone)` (src/app.py lines 27-50), with
the HTTP outcome passed in explicitly.  On `RequestException` (transport or
`raise_for_status`) it emits one `st.error` and returns `text`.  On success
it evaluates `result.get("results", [{}])[0].get("generated_text", text)`:
with `results` absent the default `[{}]` makes this `text` silently; with
`results` present but empty, `[0]` raises an uncaught `IndexError`; otherwise
the first result object yields its `generated_text`, defaulting to `text`. -/
def rewrite_text (text tone : String) (resp : HttpResponse) :
    PyOutcome (String × List Effect) :=
  let req := rewriteRequest text tone
  match resp with
  | .transportError info =>
      .ok (text, [.networkRewrite req,
                  .stError "Error rewriting text: " (.requestExn info)])
  | .status code body =>
      if raiseForStatus code then
        .ok (text, [.networkRewrite req,
                    .stError "Error rewriting text: " (.httpError code)])
      else
        match body.results with
        | none => .ok (text, [.networkRewrite req])
        | some [] => .uncaught .indexError [.networkRewrite req]
        | some (r :: _) => .ok (r.generated_text.getD text, [.networkRewrite req])

/-- Outcome of the `tts.synthesize(...)` call chain: the resulting bytes, or
any raised exception. -/
inductive TtsResult where
  | success (audio : List Nat)
  | failure (e : PyExn)
  deriving Repr, DecidableEq

/-- Embedding of `generate_audio(text, voice)` (src/app.py lines 53-63): on
success returns the audio bytes; on any exception emits one `st.error` and
returns `None` (modelled as `none`). -/
def generate_audio (text voice : String) (r : TtsResult) :
    Option (List Nat) × List Effect :=
  match r with
  | .success a => (some a, [.networkSynthesize text voice])
  | .failure e =>
      (none, [.networkSynthesize text voice,
              .stError "Error generating audio: " e])

/-- The narration record appended to `st.session_state.narrations`
(src/app.py lines 105-113). -/
structure NarrationRecord where
  id : String
  original_text : String
  rewritten_text : String
  audio : List Nat
  tone : String
  voice : String
  timestamp : String
  deriving Repr, DecidableEq

/-- The body of the `Generate Narration` handler (src/app.py lines 93-137),
given the remote outcomes, the fresh uuid and timestamp, and the current
history.  Mirrors the Python truthiness tests: `if text_input:` is
"text nonempty", `if audio_data:` is "not None and nonempty bytes".  Returns
the new history and the effect trace. -/
def handlerBody (textInput tone voice : String) (rewriteResp : HttpResponse)
    (ttsResp : TtsResult) (narrId timestamp : String)
    (history : List NarrationRecord) :
    PyOutcome (List NarrationRecord × List Effect) :=
  if textInput = "" then
    .ok (history, [.stWarning "Please provide text input."])
  else
    match rewrite_text textInput tone rewriteResp with
    | .uncaught e effs => .uncaught e effs
    | .ok (rewritten, eff1) =>
        match generate_audio rewritten voice ttsResp with
        | (some a, eff2) =>
            if a = [] then
              .ok (history, eff1 ++ eff2)
            else
              .ok (history ++
                    [{ id := narrId, original_text := textInput,
                       rewritten_text := rewritten, audio := a,
                       tone := tone, voice := voice, timestamp := timestamp }],
                  eff1 ++ eff2 ++
                    [.stAudio a,
                     .stDownload a ("narration_" ++ timestamp ++ ".mp3")])
        | (none, eff2) => .ok (history, eff1 ++ eff2)

/-- `st.button("Generate Narration", disabled=not text_input)`: the button is
disabled exactly when the input text is empty. -/
def buttonDisabled (textInput : String) : Bool :=
  textInput == ""

/-- One user action on the `Generate Narration` button: a disabled button can
never report a click, so the handler body runs only when the user pressed
and the button was enabled. -/
def generateNarrationStep (pressed : Bool) (textInput tone voice : String)
    (rewriteResp : HttpResponse) (ttsResp : TtsResult)
    (narrId timestamp : String) (history : List NarrationRecord) :
    PyOutcome (List NarrationRecord × List Effect) :=
  if pressed && !buttonDisabled textInput then
    handlerBody textInput tone voice rewriteResp ttsResp narrId timestamp history
  else
    .ok (history, [])

/-- The Past Narrations panel iterates
`reversed(st.session_state.narrations)` (src/app.py line 142): the display
order is the reverse of the append order. -/
def pastNarrationsDisplay (history : List NarrationRecord) :
    List NarrationRecord :=
  history.reverse

/-- All inputs of one user action: whether the user pressed the button, the
form values, the remote outcomes, and the fresh uuid and timestamp. -/
structure StepInput where
  pressed : Bool
  textInput : String
  tone : String
  voice : String
  rewriteResp : HttpResponse
  ttsResp : TtsResult
  narrId : String
  timestamp : String
  deriving Repr, DecidableEq

/-- A step is a successful narration: the enabled button was pressed, the
rewrite call did not raise, and synthesis produced nonempty audio. -/
def successfulRun (s : StepInput) : Bool :=
  s.pressed && !(s.textInput == "") &&
  (match rewrite_text s.textInput s.tone s.rewriteResp with
   | .ok _ => true
   | .uncaught _ _ => false) &&
  (match s.ttsResp with
   | .success a => !(a == [])
   | .failure _ => false)

/-- The rewritten text a step produces (the fallback original on an uncaught
exception, a case `successfulRun` excludes). -/
def rewrittenOf (s : StepInput) : String :=
  match rewrite_text s.textInput s.tone s.rewriteResp with
  | .ok (rw, _) => rw
  | .uncaught _ _ => s.textInput

/-- The audio bytes a step produces. -/
def audioOf (s : StepInput) : List Nat :=
  match s.ttsResp with
  | .success a => a
  | .failure _ => []

/-- The narration record a successful step appends. -/
def recordOfInput (s : StepInput) : NarrationRecord :=
  { id := s.narrId, original_text := s.textInput,
    rewritten_text := rewrittenOf s, audio := audioOf s,
    tone := s.tone, voice := s.voice, timestamp := s.timestamp }

/-- Run one step from a `StepInput`. -/
def stepOfInput (s : StepInput) (history : List NarrationRecord) :
    PyOutcome (List NarrationRecord × List Effect) :=
  generateNarrationStep s.pressed s.textInput s.tone s.voice s.rewriteResp
    s.ttsResp s.narrId s.timestamp history

/-- Run a sequence of user actions, threading the session history. -/
def runSteps : List StepInput → List NarrationRecord →
    PyOutcome (List NarrationRecord)
  | [], h => .ok h
  | s :: rest, h =>
      match stepOfInput s h with
      | .uncaught e effs => .uncaught e effs
      | .ok (h2, _) => runSteps rest h2

/-- Number of `st.error` calls in an effect trace. -/
def errorCount (effs : List Effect) : Nat :=
  (effs.filter fun e =>
    match e with
    | .stError _ _ => true
    | _ => false).length

/-- Whether an effect is an outbound network call. -/
def isNetworkCall : Effect → Bool
  | .networkRewrite _ => true
  | .networkSynthesize _ _ => true
  | _ => false

/-- Whether an effect renders a playback or download control. -/
def isPlaybackOrDownload : Effect → Bool
  | .stAudio _ => true
  | .stDownload _ _ => true
  | _ => false

/-- `startsWithChars hay needle`: `needle` is an initial segment of `hay`. -/
def startsWithChars : List Char → List Char → Bool
  | _, [] => true
  | [], _ :: _ => false
  | a :: as, n :: ns => a == n && startsWithChars as ns

/-- `containsChars hay needle`: `needle` occurs contiguously in `hay`. -/
def containsChars (hay needle : List Char) : Bool :=
  match hay with
  | [] => needle.isEmpty
  | _ :: rest => startsWithChars hay needle || containsChars rest needle

/-- Case-sensitive substring test on strings. -/
def strContains (hay needle : String) : Bool :=
  containsChars hay.toList needle.toList

/-- A concrete successful user action used to instantiate universally
quantified theorems. -/
def sampleInputA : StepInput :=
  { pressed := true, textInput := "Hello world", tone := "Neutral",
    voice := "en-US_LisaV3Voice",
    rewriteResp := .status 200 { results := some [{ generated_text := some "Hello there" }] },
    ttsResp := .success [1], narrId := "id-a",
    timestamp := "2024-01-01 10:00:00" }

/-- A second concrete successful user action with a later timestamp. -/
def sampleInputB : StepInput :=
  { pressed := true, textInput := "Second text", tone := "Inspiring",
    voice := "en-US_MichaelV3Voice",
    rewriteResp := .status 200 { results := some [{ generated_text := some "Second rewritten" }] },
    ttsResp := .success [2, 3], narrId := "id-b",
    timestamp := "2024-01-01 10:05:00" }

/-- A concrete record standing for an earlier narration already in the
session history. -/
def sampleStoredRecord : NarrationRecord :=
  { id := "id-8", original_text := "First", rewritten_text := "First!",
    audio := [9], tone := "Neutral", voice := "en-US_LisaV3Voice",
    timestamp := "2024-02-02 11:00:00" }

/-- The concrete record a later successful narration appends. -/
def sampleAppendedRecord : NarrationRecord :=
  { id := "id-9", original_text := "Second text",
    rewritten_text := "Better second", audio := [4, 5], tone := "Neutral",
    voice := "en-US_LisaV3Voice", timestamp := "2024-02-02 12:00:00" }

/-! ## Theorems -/

/-- Helper: any `ok` outcome of `rewrite_text` carries an effect trace with
no playback or download control. -/
theorem rewrite_text_ok_no_playback (text tone : String) (resp : HttpResponse)
    (rw : String) (effs : List Effect)
    (hok : rewrite_text text tone resp = .ok (rw, effs)) :
    effs.all (fun x => !isPlaybackOrDownload x) = true := by
  cases resp with
  | transportError info =>
      simp only [rewrite_text, PyOutcome.ok.injEq, Prod.mk.injEq] at hok
      rw [← hok.2]
      rfl
  | status code body =>
      simp only [rewrite_text] at hok
      split at hok
      · simp only [PyOutcome.ok.injEq, Prod.mk.injEq] at hok
        rw [← hok.2]
        rfl
      · split at hok
        · simp only [PyOutcome.ok.injEq, Prod.mk.injEq] at hok
          rw [← hok.2]
          rfl
        · cases hok
        · simp only [PyOutcome.ok.injEq, Prod.mk.injEq] at hok
          rw [← hok.2]
          rfl

/-- Claim C3: on a transport failure or an HTTP error status, `rewrite_text`
emits the error to the display surface exactly once and returns the original
input string unchanged. -/
theorem c3_rewrite_failure_fallback (text tone info : String) (code : Nat)
    (body : RewriteJson) (h4 : 400 ≤ code) (h6 : code < 600) :
    rewrite_text text tone (.transportError info) =
      .ok (text, [.networkRewrite (rewriteRequest text tone),
                  .stError "Error rewriting text: " (.requestExn info)]) ∧
    rewrite_text text tone (.status code body) =
      .ok (text, [.networkRewrite (rewriteRequest text tone),
                  .stError "Error rewriting text: " (.httpError code)]) ∧
    errorCount [.networkRewrite (rewriteRequest text tone),
                .stError "Error rewriting text: " (.requestExn info)] = 1 ∧
    errorCount [.networkRewrite (rewriteRequest text tone),
                .stError "Error rewriting text: " (.httpError code)] = 1 := by
  refine ⟨rfl, ?_, rfl, rfl⟩
  have hc : raiseForStatus code = true := by
    simp [raiseForStatus]
    exact ⟨h4, h6⟩
  simp [rewrite_text, hc]

/-- Witness for C3 at text "Hello world", a concrete transport error, and
HTTP status 500. -/
theorem c3_witness :
    400 ≤ 500 ∧ 500 < 600 ∧
    (rewrite_text "Hello world" "Neutral" (.transportError "timeout") =
      .ok ("Hello world", [.networkRewrite (rewriteRequest "Hello world" "Neutral"),
                  .stError "Error rewriting text: " (.requestExn "timeout")]) ∧
    rewrite_text "Hello world" "Neutral" (.status 500 { results := none }) =
      .ok ("Hello world", [.networkRewrite (rewriteRequest "Hello world" "Neutral"),
                  .stError "Error rewriting text: " (.httpError 500)]) ∧
    errorCount [.networkRewrite (rewriteRequest "Hello world" "Neutral"),
                .stError "Error rewriting text: " (.requestExn "timeout")] = 1 ∧
    errorCount [.networkRewrite (rewriteRequest "Hello world" "Neutral"),
                .stError "Error rewriting text: " (.httpError 500)] = 1) :=
  ⟨by decide, by decide,
   c3_rewrite_failure_fallback "Hello world" "Neutral" "timeout" 500
     { results := none } (by decide) (by decide)⟩

/-- Claim C2 counterexample: a success response (HTTP 200) whose `results`
field is the empty list makes `rewrite_text` raise an uncaught IndexError —
a malformed shape propagated as a fatal error, not converted to the
original-text fallback. -/
theorem c2_counterexample :
    rewrite_text "Hello world" "Neutral" (.status 200 { results := some [] }) =
      .uncaught .indexError
        [.networkRewrite (rewriteRequest "Hello world" "Neutral")] := by
  rfl

/-- Claim C2 amended: a success response with the `results` key absent, or
whose first result object lacks `generated_text`, falls back to the original
text silently (no user-visible error message is emitted); but a present,
empty `results` list raises an uncaught IndexError instead of being
handled. -/
theorem c2_malformed_shape_behavior (text tone : String) (code : Nat)
    (rest : List ResultObj) (hc : raiseForStatus code = false) :
    rewrite_text text tone (.status code { results := none }) =
      .ok (text, [.networkRewrite (rewriteRequest text tone)]) ∧
    rewrite_text text tone
        (.status code { results := some ({ generated_text := none } :: rest) }) =
      .ok (text, [.networkRewrite (rewriteRequest text tone)]) ∧
    rewrite_text text tone (.status code { results := some [] }) =
      .uncaught .indexError [.networkRewrite (rewriteRequest text tone)] ∧
    errorCount [.networkRewrite (rewriteRequest text tone)] = 0 := by
  refine ⟨?_, ?_, ?_, rfl⟩ <;> simp [rewrite_text, hc]

/-- Witness for the amended C2 at status 200 and concrete strings. -/
theorem c2_witness :
    raiseForStatus 200 = false ∧
    (rewrite_text "Hello world" "Neutral" (.status 200 { results := none }) =
      .ok ("Hello world", [.networkRewrite (rewriteRequest "Hello world" "Neutral")]) ∧
    rewrite_text "Hello world" "Neutral"
        (.status 200 { results := some ({ generated_text := none } :: []) }) =
      .ok ("Hello world", [.networkRewrite (rewriteRequest "Hello world" "Neutral")]) ∧
    rewrite_text "Hello world" "Neutral" (.status 200 { results := some [] }) =
      .uncaught .indexError [.networkRewrite (rewriteRequest "Hello world" "Neutral")] ∧
    errorCount [.networkRewrite (rewriteRequest "Hello world" "Neutral")] = 0) :=
  ⟨by decide,
   c2_malformed_shape_behavior "Hello world" "Neutral" 200 [] (by decide)⟩

/-- Claim C7 counterexample: for the non-empty input "Hello world" and tone
"Neutral", a successful rewrite call (HTTP 200, well-formed shape) whose
first candidate has `generated_text` equal to the empty string makes
`rewrite_text` return the empty string — a successful call need not return a
non-empty string. -/
theorem c7_counterexample :
    rewrite_text "Hello world" "Neutral"
        (.status 200 { results := some [{ generated_text := some "" }] }) =
      .ok ("", [.networkRewrite (rewriteRequest "Hello world" "Neutral")]) ∧
    "Hello world" ≠ "" := by
  exact ⟨rfl, by decide⟩

/-- Claim C7 amended: for non-empty input text, a successful rewrite call
returns the first generated candidate text verbatim when the
`generated_text` key is present (that text may be empty), and returns the
original — hence non-empty — text when the `results` key or the
`generated_text` key is absent. -/
theorem c7_success_return_value (text tone g : String) (code : Nat)
    (rest : List ResultObj) (hc : raiseForStatus code = false)
    (hne : text ≠ "") :
    rewrite_text text tone
        (.status code { results := some ({ generated_text := some g } :: rest) }) =
      .ok (g, [.networkRewrite (rewriteRequest text tone)]) ∧
    rewrite_text text tone (.status code { results := none }) =
      .ok (text, [.networkRewrite (rewriteRequest text tone)]) ∧
    rewrite_text text tone
        (.status code { results := some ({ generated_text := none } :: rest) }) =
      .ok (text, [.networkRewrite (rewriteRequest text tone)]) ∧
    text ≠ "" := by
  refine ⟨?_, ?_, ?_, hne⟩ <;> simp [rewrite_text, hc]

/-- Witness for the amended C7 at concrete inputs. -/
theorem c7_witness :
    raiseForStatus 200 = false ∧ "Hello world" ≠ "" ∧
    (rewrite_text "Hello world" "Neutral"
        (.status 200 { results := some ({ generated_text := some "Hi there" } :: []) }) =
      .ok ("Hi there", [.networkRewrite (rewriteRequest "Hello world" "Neutral")]) ∧
    rewrite_text "Hello world" "Neutral" (.status 200 { results := none }) =
      .ok ("Hello world", [.networkRewrite (rewriteRequest "Hello world" "Neutral")]) ∧
    rewrite_text "Hello world" "Neutral"
        (.status 200 { results := some ({ generated_text := none } :: []) }) =
      .ok ("Hello world", [.networkRewrite (rewriteRequest "Hello world" "Neutral")]) ∧
    "Hello world" ≠ "") :=
  ⟨by decide, by decide,
   c7_success_return_value "Hello world" "Neutral" "Hi there" 200 []
     (by decide) (by decide)⟩

/-- Claim C8 counterexample: the prompt `rewrite_text` sends for input
"Hello world" and tone "Neutral" does not contain the lowercase substring
"neutral": the tone is interpolated verbatim as "Neutral" and the fixed
template text has no occurrence of "neutral". -/
theorem c8_counterexample :
    strContains (rewriteRequest "Hello world" "Neutral").input "neutral" = false := by
  decide

/-- Claim C8 amended: the request prompt for input "Hello world" and tone
"Neutral" contains the tone string "Neutral" verbatim (capitalised, not
lowercase "neutral") and contains "Hello world"; on a success response the
returned text is exactly the first generated candidate text, verbatim. -/
theorem c8_prompt_and_verbatim_return (g : String) (rest : List ResultObj)
    (code : Nat) (hc : raiseForStatus code = false) :
    strContains (rewriteRequest "Hello world" "Neutral").input "Neutral" = true ∧
    strContains (rewriteRequest "Hello world" "Neutral").input "Hello world" = true ∧
    rewrite_text "Hello world" "Neutral"
        (.status code { results := some ({ generated_text := some g } :: rest) }) =
      .ok (g, [.networkRewrite (rewriteRequest "Hello world" "Neutral")]) := by
  refine ⟨by decide, by decide, ?_⟩
  simp [rewrite_text, hc]

/-- Witness for the amended C8 with a concrete stub response. -/
theorem c8_witness :
    raiseForStatus 200 = false ∧
    (strContains (rewriteRequest "Hello world" "Neutral").input "Neutral" = true ∧
    strContains (rewriteRequest "Hello world" "Neutral").input "Hello world" = true ∧
    rewrite_text "Hello world" "Neutral"
        (.status 200 { results := some ({ generated_text := some "Greetings, world" } :: []) }) =
      .ok ("Greetings, world",
           [.networkRewrite (rewriteRequest "Hello world" "Neutral")])) :=
  ⟨by decide,
   c8_prompt_and_verbatim_return "Greetings, world" [] 200 (by decide)⟩

/-- Claim C10: when the rewrite HTTP call succeeds but the JSON body lacks a
`results` key, or the first result object lacks `generated_text`, the
function returns the original input text with no error notification — an
effect trace identical to that of a successful rewrite that returned the
original text. -/
theorem c10_silent_fallback (text tone : String) (code : Nat)
    (rest : List ResultObj) (hc : raiseForStatus code = false) :
    rewrite_text text tone (.status code { results := none }) =
      .ok (text, [.networkRewrite (rewriteRequest text tone)]) ∧
    rewrite_text text tone
        (.status code { results := some ({ generated_text := none } :: rest) }) =
      .ok (text, [.networkRewrite (rewriteRequest text tone)]) ∧
    errorCount [.networkRewrite (rewriteRequest text tone)] = 0 ∧
    rewrite_text text tone (.status code { results := none }) =
      rewrite_text text tone
        (.status code { results := some [{ generated_text := some text }] }) := by
  refine ⟨?_, ?_, rfl, ?_⟩ <;> simp [rewrite_text, hc]

/-- Witness for C10 at status 200 and concrete strings. -/
theorem c10_witness :
    raiseForStatus 200 = false ∧
    (rewrite_text "Hello world" "Neutral" (.status 200 { results := none }) =
      .ok ("Hello world", [.networkRewrite (rewriteRequest "Hello world" "Neutral")]) ∧
    rewrite_text "Hello world" "Neutral"
        (.status 200 { results := some ({ generated_text := none } :: []) }) =
      .ok ("Hello world", [.networkRewrite (rewriteRequest "Hello world" "Neutral")]) ∧
    errorCount [.networkRewrite (rewriteRequest "Hello world" "Neutral")] = 0 ∧
    rewrite_text "Hello world" "Neutral" (.status 200 { results := none }) =
      rewrite_text "Hello world" "Neutral"
        (.status 200 { results := some [{ generated_text := some "Hello world" }] })) :=
  ⟨by decide, c10_silent_fallback "Hello world" "Neutral" 200 [] (by decide)⟩

/-- Claim C1 counterexample: with nonempty input, a rewrite call that fails
with a transport error (falling back to the original text) and a synthesis
call that succeeds, the handler still appends a NarrationRecord to the
session history — so a record is not created only when both remote calls
succeed. -/
theorem c1_counterexample :
    generateNarrationStep true "Hello world" "Neutral" "en-US_LisaV3Voice"
        (.transportError "connection refused") (.success [1, 2, 3]) "id-1"
        "2024-01-01 00:00:00" [] =
      .ok ([{ id := "id-1", original_text := "Hello world",
              rewritten_text := "Hello world", audio := [1, 2, 3],
              tone := "Neutral", voice := "en-US_LisaV3Voice",
              timestamp := "2024-01-01 00:00:00" }],
           [.networkRewrite (rewriteRequest "Hello world" "Neutral"),
            .stError "Error rewriting text: " (.requestExn "connection refused"),
            .networkSynthesize "Hello world" "en-US_LisaV3Voice",
            .stAudio [1, 2, 3],
            .stDownload [1, 2, 3] "narration_2024-01-01 00:00:00.mp3"]) := by
  rfl

/-- Claim C1 amended: for nonempty input, a NarrationRecord is created and
appended exactly when the synthesis call succeeds with nonempty audio (after
a rewrite call that did not raise): a failed rewrite call does not prevent
the append — the record then stores the fallback text returned by
`rewrite_text` — while a failed synthesis call leaves the history
unchanged. -/
theorem c1_append_iff_synthesis_success (textInput tone voice narrId
    timestamp rw : String) (rewriteResp : HttpResponse) (effs1 : List Effect)
    (a : List Nat) (e : PyExn) (h : List NarrationRecord)
    (hne : textInput ≠ "")
    (hrw : rewrite_text textInput tone rewriteResp = .ok (rw, effs1))
    (ha : a ≠ []) :
    handlerBody textInput tone voice rewriteResp (.success a) narrId
        timestamp h =
      .ok (h ++ [{ id := narrId, original_text := textInput,
                   rewritten_text := rw, audio := a, tone := tone,
                   voice := voice, timestamp := timestamp }],
           effs1 ++ [.networkSynthesize rw voice, .stAudio a,
                     .stDownload a ("narration_" ++ timestamp ++ ".mp3")]) ∧
    handlerBody textInput tone voice rewriteResp (.failure e) narrId
        timestamp h =
      .ok (h, effs1 ++ [.networkSynthesize rw voice,
                        .stError "Error generating audio: " e]) := by
  constructor <;> simp [handlerBody, hne, hrw, generate_audio, ha]

/-- Witness for the amended C1: a failed rewrite with successful synthesis
appends a record; a failed synthesis appends nothing. -/
theorem c1_witness :
    ("Hello world" ≠ "") ∧
    (rewrite_text "Hello world" "Neutral" (.transportError "boom") =
      .ok ("Hello world",
           [.networkRewrite (rewriteRequest "Hello world" "Neutral"),
            .stError "Error rewriting text: " (.requestExn "boom")])) ∧
    ([(7 : Nat)] ≠ []) ∧
    (handlerBody "Hello world" "Neutral" "en-US_LisaV3Voice"
        (.transportError "boom") (.success [7]) "id-2" "2024-01-02 00:00:00" [] =
      .ok ([{ id := "id-2", original_text := "Hello world",
              rewritten_text := "Hello world", audio := [7],
              tone := "Neutral", voice := "en-US_LisaV3Voice",
              timestamp := "2024-01-02 00:00:00" }],
           [.networkRewrite (rewriteRequest "Hello world" "Neutral"),
            .stError "Error rewriting text: " (.requestExn "boom"),
            .networkSynthesize "Hello world" "en-US_LisaV3Voice",
            .stAudio [7],
            .stDownload [7] "narration_2024-01-02 00:00:00.mp3"]) ∧
    handlerBody "Hello world" "Neutral" "en-US_LisaV3Voice"
        (.transportError "boom") (.failure (.ttsExn "no auth")) "id-2"
        "2024-01-02 00:00:00" [] =
      .ok ([], [.networkRewrite (rewriteRequest "Hello world" "Neutral"),
                .stError "Error rewriting text: " (.requestExn "boom"),
                .networkSynthesize "Hello world" "en-US_LisaV3Voice",
                .stError "Error generating audio: " (.ttsExn "no auth")])) :=
  ⟨by decide, rfl, by decide,
   c1_append_iff_synthesis_success "Hello world" "Neutral" "en-US_LisaV3Voice"
     "id-2" "2024-01-02 00:00:00" "Hello world" (.transportError "boom")
     [.networkRewrite (rewriteRequest "Hello world" "Neutral"),
      .stError "Error rewriting text: " (.requestExn "boom")]
     [7] (.ttsExn "no auth") [] (by decide) rfl (by decide)⟩

/-- Claim C4: when the synthesis call raises, `generate_audio` reports the
error and returns the absence value `none`, and the handler then appends no
history record and produces no playback or download control. -/
theorem c4_synthesis_failure_skips_downstream (textInput tone voice narrId
    timestamp rw : String) (rewriteResp : HttpResponse) (effs1 : List Effect)
    (e : PyExn) (h : List NarrationRecord) (hne : textInput ≠ "")
    (hrw : rewrite_text textInput tone rewriteResp = .ok (rw, effs1)) :
    generate_audio rw voice (.failure e) =
      (none, [.networkSynthesize rw voice,
              .stError "Error generating audio: " e]) ∧
    handlerBody textInput tone voice rewriteResp (.failure e) narrId
        timestamp h =
      .ok (h, effs1 ++ [.networkSynthesize rw voice,
                        .stError "Error generating audio: " e]) ∧
    (effs1 ++ ([.networkSynthesize rw voice,
                .stError "Error generating audio: " e] : List Effect)).all
      (fun x => !isPlaybackOrDownload x) = true := by
  refine ⟨rfl, ?_, ?_⟩
  · simp [handlerBody, hne, hrw, generate_audio]
  · rw [List.all_append]
    rw [rewrite_text_ok_no_playback textInput tone rewriteResp rw effs1 hrw]
    rfl

/-- Witness for C4 with a concrete synthesis exception. -/
theorem c4_witness :
    ("Hello world" ≠ "") ∧
    (rewrite_text "Hello world" "Neutral"
        (.status 200 { results := some [{ generated_text := some "Hi" }] }) =
      .ok ("Hi", [.networkRewrite (rewriteRequest "Hello world" "Neutral")])) ∧
    (generate_audio "Hi" "en-US_LisaV3Voice" (.failure (.ttsExn "service down")) =
      (none, [.networkSynthesize "Hi" "en-US_LisaV3Voice",
              .stError "Error generating audio: " (.ttsExn "service down")]) ∧
    handlerBody "Hello world" "Neutral" "en-US_LisaV3Voice"
        (.status 200 { results := some [{ generated_text := some "Hi" }] })
        (.failure (.ttsExn "service down")) "id-3" "2024-01-03 00:00:00" [] =
      .ok ([], [.networkRewrite (rewriteRequest "Hello world" "Neutral")] ++
               [.networkSynthesize "Hi" "en-US_LisaV3Voice",
                .stError "Error generating audio: " (.ttsExn "service down")]) ∧
    (([.networkRewrite (rewriteRequest "Hello world" "Neutral")] : List Effect) ++
      ([.networkSynthesize "Hi" "en-US_LisaV3Voice",
        .stError "Error generating audio: " (.ttsExn "service down")] : List Effect)).all
      (fun x => !isPlaybackOrDownload x) = true) :=
  ⟨by decide, rfl,
   c4_synthesis_failure_skips_downstream "Hello world" "Neutral"
     "en-US_LisaV3Voice" "id-3" "2024-01-03 00:00:00" "Hi"
     (.status 200 { results := some [{ generated_text := some "Hi" }] })
     [.networkRewrite (rewriteRequest "Hello world" "Neutral")]
     (.ttsExn "service down") [] (by decide) rfl⟩

/-- Claim C6: with empty input text the trigger button is disabled, so the
user action is a no-op with no network call of either kind; and the handler
body itself, were it ever entered with empty text, would emit only the
"Please provide text input." warning — which is not a network call — before
attempting any call. -/
theorem c6_empty_input_no_network (pressed : Bool) (tone voice narrId
    timestamp : String) (rewriteResp : HttpResponse) (ttsResp : TtsResult)
    (h : List NarrationRecord) :
    buttonDisabled "" = true ∧
    generateNarrationStep pressed "" tone voice rewriteResp ttsResp narrId
        timestamp h = .ok (h, []) ∧
    handlerBody "" tone voice rewriteResp ttsResp narrId timestamp h =
      .ok (h, [.stWarning "Please provide text input."]) ∧
    isNetworkCall (.stWarning "Please provide text input.") = false := by
  refine ⟨rfl, ?_, rfl, rfl⟩
  simp [generateNarrationStep, buttonDisabled]

/-- Helper: a successful user action appends exactly the record built from
its inputs to the end of the history. -/
theorem stepOfInput_success (s : StepInput) (h : List NarrationRecord)
    (hs : successfulRun s = true) :
    ∃ effs, stepOfInput s h = .ok (h ++ [recordOfInput s], effs) := by
  simp only [successfulRun, Bool.and_eq_true] at hs
  obtain ⟨⟨⟨hp, hne⟩, hrwb⟩, htsb⟩ := hs
  cases hrw : rewrite_text s.textInput s.tone s.rewriteResp with
  | uncaught e effs => rw [hrw] at hrwb; cases hrwb
  | ok p =>
      obtain ⟨rw, eff1⟩ := p
      cases hts : s.ttsResp with
      | failure e => rw [hts] at htsb; cases htsb
      | success a =>
          rw [hts] at htsb
          have ha : ¬(a = []) := by
            intro haeq
            rw [haeq] at htsb
            cases htsb
          have hne2 : ¬(s.textInput = "") := by
            intro heq
            rw [heq] at hne
            cases hne
          refine ⟨eff1 ++ [.networkSynthesize rw s.voice, .stAudio a,
            .stDownload a ("narration_" ++ s.timestamp ++ ".mp3")], ?_⟩
          simp [stepOfInput, generateNarrationStep, buttonDisabled,
            handlerBody, hp, hne2, hrw, hts, generate_audio, ha,
            recordOfInput, rewrittenOf, audioOf]

/-- Helper: running a list of successful user actions threads the history
and appends the corresponding records in order. -/
theorem runSteps_all_success (inputs : List StepInput)
    (h : List NarrationRecord)
    (hall : ∀ s ∈ inputs, successfulRun s = true) :
    runSteps inputs h = .ok (h ++ inputs.map recordOfInput) := by
  induction inputs generalizing h with
  | nil => simp [runSteps]
  | cons s rest ih =>
      obtain ⟨effs, hstep⟩ := stepOfInput_success s h (hall s (by simp))
      have hrest : ∀ t ∈ rest, successfulRun t = true := by
        intro t ht
        exact hall t (by simp [ht])
      simp [runSteps, hstep, ih _ hrest]

/-- Claim C5: appending N successful narrations to an initially empty
session history yields a history of length N, and the Past Narrations panel
iterates it in strictly reverse creation order: the k-th displayed record is
the (N-1-k)-th created one, so of two records created in sequence the later
one is displayed first. -/
theorem c5_history_reverse_chronological (inputs : List StepInput)
    (hall : ∀ s ∈ inputs, successfulRun s = true) :
    runSteps inputs [] = .ok (inputs.map recordOfInput) ∧
    (inputs.map recordOfInput).length = inputs.length ∧
    (∀ k, k < inputs.length →
      (pastNarrationsDisplay (inputs.map recordOfInput))[k]? =
        (inputs.map recordOfInput)[inputs.length - 1 - k]?) := by
  refine ⟨?_, by simp, ?_⟩
  · have := runSteps_all_success inputs [] hall
    simpa using this
  · intro k hk
    have hk2 : k < (inputs.map recordOfInput).length := by simpa using hk
    have := List.getElem?_reverse hk2
    simpa [pastNarrationsDisplay] using this

/-- Witness for C5 with two successful narrations whose timestamps are
"2024-01-01 10:00:00" and the later "2024-01-01 10:05:00": the later record
is displayed first. -/
theorem c5_witness :
    (∀ s ∈ [sampleInputA, sampleInputB], successfulRun s = true) ∧
    (runSteps [sampleInputA, sampleInputB] [] =
      .ok ([sampleInputA, sampleInputB].map recordOfInput) ∧
    ([sampleInputA, sampleInputB].map recordOfInput).length =
      [sampleInputA, sampleInputB].length ∧
    (∀ k, k < [sampleInputA, sampleInputB].length →
      (pastNarrationsDisplay ([sampleInputA, sampleInputB].map recordOfInput))[k]? =
        ([sampleInputA, sampleInputB].map recordOfInput)[[sampleInputA, sampleInputB].length - 1 - k]?)) :=
  ⟨by decide, c5_history_reverse_chronological [sampleInputA, sampleInputB] (by decide)⟩

/-- Helper: every `ok` outcome of a user action leaves the history unchanged
or appends exactly one record at the end. -/
theorem generateNarrationStep_append_only (pressed : Bool)
    (textInput tone voice narrId timestamp : String)
    (rewriteResp : HttpResponse) (ttsResp : TtsResult)
    (h h2 : List NarrationRecord) (effs : List Effect)
    (hok : generateNarrationStep pressed textInput tone voice rewriteResp
      ttsResp narrId timestamp h = .ok (h2, effs)) :
    h2 = h ∨ ∃ r, h2 = h ++ [r] := by
  unfold generateNarrationStep at hok
  split at hok
  · unfold handlerBody at hok
    split at hok
    · simp only [PyOutcome.ok.injEq, Prod.mk.injEq] at hok
      exact Or.inl hok.1.symm
    · split at hok
      · simp at hok
      · cases ttsResp with
        | success a =>
            simp only [generate_audio] at hok
            split at hok
            · simp only [PyOutcome.ok.injEq, Prod.mk.injEq] at hok
              exact Or.inl hok.1.symm
            · simp only [PyOutcome.ok.injEq, Prod.mk.injEq] at hok
              exact Or.inr ⟨_, hok.1.symm⟩
        | failure e =>
            simp only [generate_audio] at hok
            simp only [PyOutcome.ok.injEq, Prod.mk.injEq] at hok
            exact Or.inl hok.1.symm
  · simp only [PyOutcome.ok.injEq, Prod.mk.injEq] at hok
    exact Or.inl hok.1.symm

/-- Claim C9: NarrationRecords are immutable once created: any user action
that completes leaves every already-stored record in place unchanged (the
history is append-only), and every stored record reappears verbatim in the
Past Narrations display of the new history, so repeated reads of a record
yield identical values. -/
theorem c9_records_immutable (pressed : Bool)
    (textInput tone voice narrId timestamp : String)
    (rewriteResp : HttpResponse) (ttsResp : TtsResult)
    (h h2 : List NarrationRecord) (effs : List Effect)
    (hok : generateNarrationStep pressed textInput tone voice rewriteResp
      ttsResp narrId timestamp h = .ok (h2, effs)) :
    (∀ i, i < h.length → h2[i]? = h[i]?) ∧
    (∀ r, r ∈ h → r ∈ pastNarrationsDisplay h2) := by
  have key := generateNarrationStep_append_only pressed textInput tone voice
    narrId timestamp rewriteResp ttsResp h h2 effs hok
  constructor
  · intro i hi
    rcases key with heq | ⟨r, heq⟩
    · rw [heq]
    · rw [heq]
      exact List.getElem?_append_left hi
  · intro r hr
    rcases key with heq | ⟨r2, heq⟩
    · rw [heq]
      simpa [pastNarrationsDisplay] using hr
    · rw [heq]
      simp only [pastNarrationsDisplay, List.mem_reverse]
      exact List.mem_append_left _ hr

/-- Witness for C9: a concrete successful action on a one-record history
leaves the stored record at its index unchanged and shows it verbatim in the
display of the grown history. -/
theorem c9_witness :
    (generateNarrationStep true "Second text" "Neutral" "en-US_LisaV3Voice"
        (.status 200 { results := some [{ generated_text := some "Better second" }] })
        (.success [4, 5]) "id-9" "2024-02-02 12:00:00" [sampleStoredRecord] =
      .ok ([sampleStoredRecord, sampleAppendedRecord],
           [.networkRewrite (rewriteRequest "Second text" "Neutral"),
            .networkSynthesize "Better second" "en-US_LisaV3Voice",
            .stAudio [4, 5],
            .stDownload [4, 5] "narration_2024-02-02 12:00:00.mp3"])) ∧
    ((∀ i, i < [sampleStoredRecord].length →
        [sampleStoredRecord, sampleAppendedRecord][i]? = [sampleStoredRecord][i]?) ∧
     (∀ r, r ∈ [sampleStoredRecord] →
        r ∈ pastNarrationsDisplay [sampleStoredRecord, sampleAppendedRecord])) :=
  ⟨by rfl,
   c9_records_immutable true "Second text" "Neutral" "en-US_LisaV3Voice"
     "id-9" "2024-02-02 12:00:00"
     (.status 200 { results := some [{ generated_text := some "Better second" }] })
     (.success [4, 5]) [sampleStoredRecord]
     [sampleStoredRecord, sampleAppendedRecord]
     [.networkRewrite (rewriteRequest "Second text" "Neutral"),
      .networkSynthesize "Better second" "en-US_LisaV3Voice",
      .stAudio [4, 5],
      .stDownload [4, 5] "narration_2024-02-02 12:00:00.mp3"]
     (by rfl)⟩
